import Mathlib

/-!
# WeatherNow front end: classifiers, mappers and the request orchestrator

A shallow embedding of the logic of `frontend/src/App.jsx` and of the components
`AQICard.jsx`, `WeatherBackground.jsx`, `WeatherCard.jsx` and `Forecast.jsx`.

JavaScript values are modelled by `JSVal`; React state is an explicit record and an
event handler is a function from the state before the event to the state after it.
-/

namespace WeatherNow

/-! ## JavaScript values -/

/-- A JavaScript number by its value: a finite value (every finite double is a rational;
the two zeros share the value 0), an infinity, or NaN. -/
inductive JSNumber where
  | finite (q : ℚ) : JSNumber
  | infinity (negative : Bool) : JSNumber
  | nan : JSNumber

/-- ECMAScript `ToBoolean` on a number: zero and NaN are falsy. -/
def JSNumber.truthy : JSNumber → Bool
  | .finite q => q != 0
  | .infinity _ => true
  | .nan => false

/-- The JavaScript values that reach the modelled code: `undefined`, `null`, booleans,
numbers, strings and objects (association lists from property names to values).
Arrays are not read by any modelled path and are left out. -/
inductive JSVal where
  | undefined : JSVal
  | null : JSVal
  | bool (b : Bool) : JSVal
  | num (x : JSNumber) : JSVal
  | str (s : String) : JSVal
  | obj (fields : List (String × JSVal)) : JSVal

/-- ECMAScript `ToBoolean`: `undefined`, `null`, `false`, `0` and `""` are falsy,
every other value (every object included) is truthy. -/
def JSVal.truthy : JSVal → Bool
  | .undefined => false
  | .null => false
  | .bool b => b
  | .num x => x.truthy
  | .str s => s != ""
  | .obj _ => true

/-- Property read `v.name` (also `v?.name`) for a data property `name`: the value stored
in an object, `undefined` when the object has no such property or when `v` is not an
object. (A plain read on `undefined` or `null` throws; every modelled read of that
kind is guarded by a truthiness test or written with `?.`.) -/
def JSVal.getProp (v : JSVal) (name : String) : JSVal :=
  match v with
  | .obj fields =>
    match fields.lookup name with
    | some x => x
    | none => .undefined
  | _ => .undefined

/-- The string a template literal hole yields for a value (ECMAScript `ToString`);
a plain object prints as `[object Object]`. The decimal printing of a number,
`Number::toString` (shortest digits that read back as the same double, exponent
form from 1e21 on), is the argument `numberToString`. -/
def JSVal.toStr (numberToString : JSNumber → String) : JSVal → String
  | .undefined => "undefined"
  | .null => "null"
  | .bool b => if b then "true" else "false"
  | .num x => numberToString x
  | .str s => s
  | .obj _ => "[object Object]"

/-! ## `AQICard.jsx` -/

/-- What `AQICard` derives from `aqi`: badge label, CSS severity class, gauge thumb position. -/
structure AQIClassification where
  label : String
  colorClass : String
  thumbPos : Nat
deriving DecidableEq, Repr

/-- Lines 8 to 37 of `AQICard.jsx`: three variables with initial values, then the
`if / else if` ladder on `aqi`, each branch assigning all three. -/
def classifyAQI (aqi : Int) : AQIClassification := Id.run do
  let mut label := "Good"
  let mut colorClass := "aqi-good"
  let mut thumbPos := 10
  if aqi ≤ 50 then
    label := "Good"
    colorClass := "aqi-good"
    thumbPos := 12
  else if aqi ≤ 100 then
    label := "Moderate"
    colorClass := "aqi-moderate"
    thumbPos := 30
  else if aqi ≤ 150 then
    label := "Unhealthy for Sensitive Groups"
    colorClass := "aqi-unhealthy"
    thumbPos := 50
  else if aqi ≤ 200 then
    label := "Unhealthy"
    colorClass := "aqi-unhealthy"
    thumbPos := 65
  else if aqi ≤ 300 then
    label := "Very Unhealthy"
    colorClass := "aqi-unhealthy"
    thumbPos := 82
  else
    label := "Hazardous"
    colorClass := "aqi-unhealthy"
    thumbPos := 94
  return { label := label, colorClass := colorClass, thumbPos := thumbPos }

/-! ## `App.jsx`: the request orchestrator -/

/-- ECMAScript `WhiteSpace` and `LineTerminator` code points, the ones
`String.prototype.trim` strips. -/
def isWhiteSpace (c : Char) : Bool :=
  let n := c.toNat
  n == 0x09 || n == 0x0A || n == 0x0B || n == 0x0C || n == 0x0D || n == 0x20
    || n == 0xA0 || n == 0x1680 || (0x2000 ≤ n && n ≤ 0x200A) || n == 0x2028
    || n == 0x2029 || n == 0x202F || n == 0x205F || n == 0x3000 || n == 0xFEFF

/-- The built-in `String.prototype.trim`: the string without its leading and trailing white space. -/
def trim (s : String) : String :=
  ⟨((s.data.dropWhile isWhiteSpace).reverse.dropWhile isWhiteSpace).reverse⟩

/-- The five `useState` cells of `App` (lines 15 to 19). -/
structure AppState where
  city : String
  weather : JSVal
  forecast : JSVal
  loading : Bool
  error : JSVal

/-- The state of the first render: `useState('')`, `useState(null)`, `useState(null)`,
`useState(false)`, `useState(null)`. -/
def AppState.initial : AppState :=
  { city := "", weather := .null, forecast := .null, loading := false, error := .null }

/-- An axios response, as far as `App` reads it: `status` and the parsed body `data`. -/
structure Response where
  status : Nat
  data : JSVal

/-- The value a failed `axios.get` rejects with: `response` is present when the server
answered with an error status and absent (`undefined`) on a network failure. -/
structure AxiosError where
  response : Option Response

/-- How the promise of `Promise.all([...])` settles. -/
inductive Settled where
  | fulfilled (weatherRes forecastRes : Response) : Settled
  | rejected (err : AxiosError) : Settled

/-- The promise of `Promise.all` over the two requests: fulfilled with both responses when both
succeed, otherwise rejected with the reason of the request that failed first
(`forecastFirst` tells which of two failures came first). -/
def promiseAll (weatherGet forecastGet : Except AxiosError Response) (forecastFirst : Bool) :
    Settled :=
  match weatherGet, forecastGet with
  | .ok w, .ok f => .fulfilled w f
  | .error e, .ok _ => .rejected e
  | .ok _, .error e => .rejected e
  | .error e₁, .error e₂ => .rejected (if forecastFirst then e₂ else e₁)

/-- Lines 21 to 34 of `App.jsx`, the synchronous part of `fetchWeather` up to the
`await`: the guard on the trimmed city, the four state resets, and the two GET
requests handed to axios. Returns the next state and the URLs requested (none when
the guard returns early). -/
def fetchWeather (s : AppState) : AppState × List String :=
  if !(JSVal.str (trim s.city)).truthy then (s, [])
  else
    ({ s with loading := true, error := .null, weather := .null, forecast := .null },
      ["/api/weather?city=" ++ s.city, "/api/forecast?city=" ++ s.city])

/-- The optional chain `err.response?.data?.detail`. -/
def AxiosError.detail (err : AxiosError) : JSVal :=
  match err.response with
  | none => .undefined
  | some r => r.data.getProp "detail"

/-- Lines 38 to 41 of `App.jsx`: the message the `catch` block passes to `setError`. -/
def catchMessage (err : AxiosError) : JSVal := Id.run do
  let mut message := JSVal.str "Could not fetch weather data. Please try again."
  if (err.response.map (·.status) == some 404) && err.detail.truthy then
    message := err.detail
  return message

/-- Lines 35 to 50 of `App.jsx`, the part of `fetchWeather` that runs once the awaited
`Promise.all` has settled, applied to the state current at that moment: the two
setters of the `try` block or `setError` of the `catch` block, then `setLoading(false)`
of `finally`. The `console.error` calls do not touch the state and are left out. -/
def fetchWeather.resume (s : AppState) (r : Settled) : AppState :=
  match r with
  | .fulfilled weatherRes forecastRes =>
    { s with weather := weatherRes.data, forecast := forecastRes.data, loading := false }
  | .rejected err =>
    { s with error := catchMessage err, loading := false }

/-- The running application: the React state and the number of submissions whose
`Promise.all` has not settled yet. -/
structure Sys where
  ui : AppState
  pending : Nat

/-- The page after the first render, nothing in flight. -/
def Sys.initial : Sys := { ui := AppState.initial, pending := 0 }

/-- What can happen to the page: the user edits the input (`onChange`, line 71), the
user submits the form, or an in-flight pair of requests settles. -/
inductive Event where
  | type (text : String) : Event
  | submit : Event
  | settle (weatherGet forecastGet : Except AxiosError Response) (forecastFirst : Bool) : Event

/-- One event. A submit gesture reaches `fetchWeather` only while the submit button is
enabled (`disabled={loading}`, line 74); a settlement with nothing in flight does
not occur. The state updates of one handler run are applied together. -/
def Sys.step (sys : Sys) : Event → Sys
  | .type text => { sys with ui := { sys.ui with city := text } }
  | .submit =>
    if sys.ui.loading then sys
    else
      let r := fetchWeather sys.ui
      { ui := r.1, pending := if r.2.isEmpty then sys.pending else sys.pending + 1 }
  | .settle w f first =>
    if sys.pending = 0 then sys
    else
      { ui := fetchWeather.resume sys.ui (promiseAll w f first), pending := sys.pending - 1 }

/-- The page after a sequence of events, from the first render. -/
def Sys.run (events : List Event) : Sys := events.foldl Sys.step Sys.initial

/-! ## `WeatherBackground.jsx` -/

/-- The built-in `String.prototype.toLowerCase` on the letters `A` to `Z`. The built-in also maps
non-ASCII letters to their lowercase forms; the model leaves those as they are. The
keywords searched for below are ASCII. -/
def toLowerCase (s : String) : String := ⟨s.data.map Char.toLower⟩

/-- Whether `search` occurs in `text` starting at some position: it is a prefix of
`text` or it occurs in the tail. -/
def includesList : List Char → List Char → Bool
  | [], search => search.isPrefixOf []
  | c :: cs, search => search.isPrefixOf (c :: cs) || includesList cs search

/-- The built-in `String.prototype.includes`, on code points; the keywords searched
for are ASCII, for which this is the same as on UTF-16 code units. -/
def includes (s search : String) : Bool := includesList s.data search.data

/-- The effect of `WeatherBackground` (lines 6 to 25): the value given to `setMode` for
a `weather` prop, `none` when the effect throws (`toLowerCase` called on a truthy
description that is not a string). -/
def WeatherBackground.mode (weather : JSVal) : Option String :=
  if !weather.truthy || !(weather.getProp "weather_description").truthy then some "default"
  else
    match weather.getProp "weather_description" with
    | .str d =>
      let desc := toLowerCase d
      if includes desc "rain" || includes desc "drizzle" || includes desc "thunder" then
        some "rainy"
      else if includes desc "snow" || includes desc "sleet" || includes desc "blizzard" then
        some "snowy"
      else if includes desc "clear" || includes desc "sun" then
        some "sunny"
      else if includes desc "cloud" || includes desc "overcast" then
        some "cloudy"
      else
        some "sunny"
    | _ => none

/-! ## `WeatherCard.jsx` -/

/-- The text of the visibility metric of `WeatherCard` (line 92), `none` when the card
renders nothing (`if (!data) return null`, line 4). `numberToString` is the
built-in printing of numbers used by the template literal. -/
def WeatherCard.visibilityText (numberToString : JSNumber → String) (data : JSVal) :
    Option String :=
  if !data.truthy then none
  else
    let visibility := data.getProp "visibility"
    some (if visibility.truthy then visibility.toStr numberToString ++ " km" else "N/A")

/-! ## `Forecast.jsx` -/

/-- The icon of one forecast day (lines 21 to 24 of `Forecast.jsx`), `none` when
`day.weather_description.toLowerCase()` throws because the description is not a string. -/
def Forecast.icon (day : JSVal) : Option String :=
  match day.getProp "weather_description" with
  | .str d =>
    some (if includes (toLowerCase d) "rain" then "🌧️"
      else if includes (toLowerCase d) "cloud" then "☁️" else "☀️")
  | _ => none

/-! ## The classification rule in the words of the specification -/

/-- Two strings are equal up to the case of the letters `A` to `Z`. -/
def equalsIgnoreCase (a b : List Char) : Bool :=
  a.map Char.toLower == b.map Char.toLower

/-- Case-insensitive substring match: some window of `text`, as long as `keyword`,
equals `keyword` up to letter case. -/
def containsIgnoreCase (text keyword : String) : Bool :=
  (List.range (text.length + 1)).any fun i =>
    equalsIgnoreCase ((text.data.drop i).take keyword.length) keyword.data

/-- The visual mode of a description by the rule of the specification: first matching
category wins, in the order rainy, snowy, sunny, cloudy, with sunny as the fallback. -/
def visualModeSpec (description : String) : String :=
  if containsIgnoreCase description "rain" || containsIgnoreCase description "drizzle"
      || containsIgnoreCase description "thunder" then "rainy"
  else if containsIgnoreCase description "snow" || containsIgnoreCase description "sleet"
      || containsIgnoreCase description "blizzard" then "snowy"
  else if containsIgnoreCase description "clear" || containsIgnoreCase description "sun" then
    "sunny"
  else if containsIgnoreCase description "cloud" || containsIgnoreCase description "overcast" then
    "cloudy"
  else "sunny"

/-- The description as the `weather_description` property of an object. -/
def withDescription (d : String) : JSVal := .obj [("weather_description", .str d)]

/-- The table of the AQI classifier in the specification: upper bound of the range,
then label, severity class and gauge position. -/
def aqiTable : List (Nat × AQIClassification) :=
  [(50, ⟨"Good", "aqi-good", 12⟩),
   (100, ⟨"Moderate", "aqi-moderate", 30⟩),
   (150, ⟨"Unhealthy for Sensitive Groups", "aqi-unhealthy", 50⟩),
   (200, ⟨"Unhealthy", "aqi-unhealthy", 65⟩),
   (300, ⟨"Very Unhealthy", "aqi-unhealthy", 82⟩)]

/-- The first row of the table whose bound is not below `aqi`; above every bound the
row is Hazardous. -/
def aqiFirstMatch (aqi : Nat) : AQIClassification :=
  match aqiTable.find? (fun row => aqi ≤ row.1) with
  | some row => row.2
  | none => ⟨"Hazardous", "aqi-unhealthy", 94⟩

/-- The descriptions on which the icon of `Forecast` and the mode of `WeatherBackground`
part ways: no rain in the text, and drizzle or thunder; or cloud together with one
of snow, sleet, blizzard, clear, sun; or overcast with none of cloud, snow, sleet,
blizzard, clear, sun. -/
def iconDiffersFromMode (d : String) : Bool :=
  !containsIgnoreCase d "rain"
    && (containsIgnoreCase d "drizzle" || containsIgnoreCase d "thunder"
      || (containsIgnoreCase d "cloud"
          && (containsIgnoreCase d "snow" || containsIgnoreCase d "sleet"
              || containsIgnoreCase d "blizzard" || containsIgnoreCase d "clear"
              || containsIgnoreCase d "sun"))
      || (containsIgnoreCase d "overcast" && !containsIgnoreCase d "cloud"
          && !(containsIgnoreCase d "snow" || containsIgnoreCase d "sleet"
              || containsIgnoreCase d "blizzard" || containsIgnoreCase d "clear"
              || containsIgnoreCase d "sun")))

/-- A city that is empty or holds white space only. -/
def isBlank (city : String) : Bool := city.data.all isWhiteSpace

/-- A state that shows an earlier error, with only white space in the input. -/
def blankAfterError : AppState :=
  { city := "  \t ", weather := .null, forecast := .null, loading := false,
    error := .str "City not found" }

/-- A state that shows an earlier result for Pune, with Tokyo typed into the input. -/
def tokyoAfterPune : AppState :=
  { city := "Tokyo", weather := .obj [("city", .str "Pune")], forecast := .obj [],
    loading := false, error := .null }

/-- What holds of the page between events: while loading, exactly one submission is in
flight and error and weather are null; otherwise nothing is in flight and error and
weather are not both set. -/
def Sys.Consistent (sys : Sys) : Prop :=
  (sys.ui.loading = true → sys.pending = 1 ∧ sys.ui.error = .null ∧ sys.ui.weather = .null)
  ∧ (sys.ui.loading = false →
      sys.pending = 0 ∧ (sys.ui.error = .null ∨ sys.ui.weather = .null))

/-! ## Theorems -/

theorem trim_eq_empty_of_blank (city : String) (h : isBlank city = true) : trim city = "" := by
  have h1 : city.data.dropWhile isWhiteSpace = [] := by
    rw [List.dropWhile_eq_nil_iff]
    intro c hc
    exact (List.all_eq_true.mp h) c hc
  simp [trim, h1]

theorem trim_ne_empty_of_not_blank (city : String) (h : isBlank city = false) :
    trim city ≠ "" := by
  have h1 : city.data.dropWhile isWhiteSpace ≠ [] := by
    intro hnil
    rw [List.dropWhile_eq_nil_iff] at hnil
    have : isBlank city = true := List.all_eq_true.mpr hnil
    rw [h] at this
    exact Bool.noConfusion this
  have h2 : isWhiteSpace ((city.data.dropWhile isWhiteSpace).head h1) = false := by
    simpa using List.head_dropWhile_not isWhiteSpace city.data h1
  have h3 : (city.data.dropWhile isWhiteSpace).reverse.dropWhile isWhiteSpace ≠ [] := by
    intro hnil
    rw [List.dropWhile_eq_nil_iff] at hnil
    have := hnil ((city.data.dropWhile isWhiteSpace).head h1)
      (List.mem_reverse.mpr (List.head_mem h1))
    rw [h2] at this
    exact Bool.noConfusion this
  intro hEq
  have h4 : (trim city).data = [] := by rw [hEq]
  simp only [trim, List.reverse_eq_nil_iff] at h4
  exact h3 h4

theorem fetchWeather_of_blank (s : AppState) (h : isBlank s.city = true) :
    fetchWeather s = (s, []) := by
  simp [fetchWeather, trim_eq_empty_of_blank s.city h, JSVal.truthy]

theorem fetchWeather_of_not_blank (s : AppState) (h : isBlank s.city = false) :
    fetchWeather s =
      ({ s with loading := true, error := .null, weather := .null, forecast := .null },
        ["/api/weather?city=" ++ s.city, "/api/forecast?city=" ++ s.city]) := by
  have := trim_ne_empty_of_not_blank s.city h
  simp [fetchWeather, JSVal.truthy, this]

theorem catchMessage_ne_null (err : AxiosError) : catchMessage err ≠ .null := by
  unfold catchMessage
  simp only [Id.run, pure, bind]
  split
  · rename_i h
    intro hnull
    simp [hnull, JSVal.truthy] at h
  · simp

theorem catchMessage_truthy (err : AxiosError) : (catchMessage err).truthy = true := by
  unfold catchMessage
  simp only [Id.run, pure, bind]
  split
  · rename_i h
    simp only [Bool.and_eq_true] at h
    exact h.2
  · rfl

theorem catchMessage_cases (err : AxiosError) :
    catchMessage err =
      if (err.response.map (·.status) == some 404) && err.detail.truthy then err.detail
      else .str "Could not fetch weather data. Please try again." := by
  unfold catchMessage
  simp only [Id.run, pure, bind]

/-- C1. For every non-negative integer `aqi` the classifier of `AQICard` returns the
triple of the first matching row of the table (at most 50 Good, at most 100 Moderate,
at most 150 Unhealthy for Sensitive Groups, at most 200 Unhealthy, at most 300 Very
Unhealthy, above 300 Hazardous, with their classes and gauge positions); the label
is Good on all of 0 to 50, and the label at `aqi` differs from the label at `aqi + 1`
exactly for `aqi` one of 50, 100, 150, 200, 300. The severity classes good, moderate
and unhealthy are the CSS classes `aqi-good`, `aqi-moderate`, `aqi-unhealthy`. -/
theorem classifyAQI_first_matching_row (aqi : Nat) :
    classifyAQI aqi = aqiFirstMatch aqi
    ∧ (classifyAQI aqi =
        if aqi ≤ 50 then ⟨"Good", "aqi-good", 12⟩
        else if aqi ≤ 100 then ⟨"Moderate", "aqi-moderate", 30⟩
        else if aqi ≤ 150 then ⟨"Unhealthy for Sensitive Groups", "aqi-unhealthy", 50⟩
        else if aqi ≤ 200 then ⟨"Unhealthy", "aqi-unhealthy", 65⟩
        else if aqi ≤ 300 then ⟨"Very Unhealthy", "aqi-unhealthy", 82⟩
        else ⟨"Hazardous", "aqi-unhealthy", 94⟩)
    ∧ (aqi ≤ 50 → (classifyAQI aqi).label = "Good")
    ∧ ((classifyAQI aqi).label ≠ (classifyAQI (aqi + 1 : Nat)).label ↔
        aqi = 50 ∨ aqi = 100 ∨ aqi = 150 ∨ aqi = 200 ∨ aqi = 300) := by
  have key : ∀ n : Nat, classifyAQI n =
      if n ≤ 50 then ⟨"Good", "aqi-good", 12⟩
      else if n ≤ 100 then ⟨"Moderate", "aqi-moderate", 30⟩
      else if n ≤ 150 then ⟨"Unhealthy for Sensitive Groups", "aqi-unhealthy", 50⟩
      else if n ≤ 200 then ⟨"Unhealthy", "aqi-unhealthy", 65⟩
      else if n ≤ 300 then ⟨"Very Unhealthy", "aqi-unhealthy", 82⟩
      else ⟨"Hazardous", "aqi-unhealthy", 94⟩ := by
    intro n
    simp only [classifyAQI, Id.run, pure, bind]
    have e1 : ((n : Int) ≤ 50) ↔ n ≤ 50 := by omega
    have e2 : ((n : Int) ≤ 100) ↔ n ≤ 100 := by omega
    have e3 : ((n : Int) ≤ 150) ↔ n ≤ 150 := by omega
    have e4 : ((n : Int) ≤ 200) ↔ n ≤ 200 := by omega
    have e5 : ((n : Int) ≤ 300) ↔ n ≤ 300 := by omega
    simp only [e1, e2, e3, e4, e5]
  refine ⟨?_, key aqi, ?_, ?_⟩
  · rw [key]
    simp only [aqiFirstMatch, aqiTable, List.find?]
    by_cases h1 : aqi ≤ 50
    · simp [h1]
    by_cases h2 : aqi ≤ 100
    · simp [h1, h2]
    by_cases h3 : aqi ≤ 150
    · simp [h1, h2, h3]
    by_cases h4 : aqi ≤ 200
    · simp [h1, h2, h3, h4]
    by_cases h5 : aqi ≤ 300
    · simp [h1, h2, h3, h4, h5]
    · simp [h1, h2, h3, h4, h5]
  · intro h
    rw [key]
    simp [h]
  · rw [key, key]
    by_cases h1 : aqi ≤ 49
    · have a1 : aqi ≤ 50 := by omega
      have a2 : aqi + 1 ≤ 50 := by omega
      simp only [a1, a2, if_true]
      constructor
      · intro h; exact absurd rfl h
      · intro h; omega
    by_cases h1' : aqi = 50
    · subst h1'; simp
    by_cases h2 : aqi ≤ 99
    · have a1 : ¬ aqi ≤ 50 := by omega
      have a2 : ¬ aqi + 1 ≤ 50 := by omega
      have a3 : aqi ≤ 100 := by omega
      have a4 : aqi + 1 ≤ 100 := by omega
      simp only [a1, a2, a3, a4, if_true, if_false]
      constructor
      · intro h; exact absurd rfl h
      · intro h; omega
    by_cases h2' : aqi = 100
    · subst h2'; simp
    by_cases h3 : aqi ≤ 149
    · have a1 : ¬ aqi ≤ 50 := by omega
      have a2 : ¬ aqi + 1 ≤ 50 := by omega
      have a3 : ¬ aqi ≤ 100 := by omega
      have a4 : ¬ aqi + 1 ≤ 100 := by omega
      have a5 : aqi ≤ 150 := by omega
      have a6 : aqi + 1 ≤ 150 := by omega
      simp only [a1, a2, a3, a4, a5, a6, if_true, if_false]
      constructor
      · intro h; exact absurd rfl h
      · intro h; omega
    by_cases h3' : aqi = 150
    · subst h3'; simp
    by_cases h4 : aqi ≤ 199
    · have a1 : ¬ aqi ≤ 50 := by omega
      have a2 : ¬ aqi + 1 ≤ 50 := by omega
      have a3 : ¬ aqi ≤ 100 := by omega
      have a4 : ¬ aqi + 1 ≤ 100 := by omega
      have a5 : ¬ aqi ≤ 150 := by omega
      have a6 : ¬ aqi + 1 ≤ 150 := by omega
      have a7 : aqi ≤ 200 := by omega
      have a8 : aqi + 1 ≤ 200 := by omega
      simp only [a1, a2, a3, a4, a5, a6, a7, a8, if_true, if_false]
      constructor
      · intro h; exact absurd rfl h
      · intro h; omega
    by_cases h4' : aqi = 200
    · subst h4'; simp
    by_cases h5 : aqi ≤ 299
    · have a1 : ¬ aqi ≤ 50 := by omega
      have a2 : ¬ aqi + 1 ≤ 50 := by omega
      have a3 : ¬ aqi ≤ 100 := by omega
      have a4 : ¬ aqi + 1 ≤ 100 := by omega
      have a5 : ¬ aqi ≤ 150 := by omega
      have a6 : ¬ aqi + 1 ≤ 150 := by omega
      have a7 : ¬ aqi ≤ 200 := by omega
      have a8 : ¬ aqi + 1 ≤ 200 := by omega
      have a9 : aqi ≤ 300 := by omega
      have a10 : aqi + 1 ≤ 300 := by omega
      simp only [a1, a2, a3, a4, a5, a6, a7, a8, a9, a10, if_true, if_false]
      constructor
      · intro h; exact absurd rfl h
      · intro h; omega
    by_cases h5' : aqi = 300
    · subst h5'; simp
    · have a1 : ¬ aqi ≤ 50 := by omega
      have a2 : ¬ aqi + 1 ≤ 50 := by omega
      have a3 : ¬ aqi ≤ 100 := by omega
      have a4 : ¬ aqi + 1 ≤ 100 := by omega
      have a5 : ¬ aqi ≤ 150 := by omega
      have a6 : ¬ aqi + 1 ≤ 150 := by omega
      have a7 : ¬ aqi ≤ 200 := by omega
      have a8 : ¬ aqi + 1 ≤ 200 := by omega
      have a9 : ¬ aqi ≤ 300 := by omega
      have a10 : ¬ aqi + 1 ≤ 300 := by omega
      simp only [a1, a2, a3, a4, a5, a6, a7, a8, a9, a10, if_true, if_false]
      constructor
      · intro h; exact absurd rfl h
      · intro h; omega

/-- Witness for C1 at the boundary 50 / 51. -/
theorem classifyAQI_first_matching_row_witness :
    (classifyAQI (50 : Nat)).label = "Good"
    ∧ (classifyAQI (50 : Nat)).label ≠ (classifyAQI ((50 : Nat) + 1 : Nat)).label :=
  ⟨(classifyAQI_first_matching_row 50).2.2.1 (by decide),
    (classifyAQI_first_matching_row 50).2.2.2.mpr (Or.inl rfl)⟩

/-- C2. For every non-blank city and every pair of outcomes of the two requests of
one submission (no other submission in flight), the submission issues the two
requests and the state after the settlement is both-or-neither: when both requests
succeed, `weather` and `forecast` hold the two response bodies, `error` is null and
`loading` is false; when at least one fails, `weather` and `forecast` are null (also
when the other request succeeded), `error` is not null, in fact a truthy value that
the error branch of the page shows, and `loading` is false. -/
theorem fetchWeather_both_or_neither (s : AppState) (hcity : isBlank s.city = false)
    (weatherGet forecastGet : Except AxiosError Response) (forecastFirst : Bool) :
    (fetchWeather s).2 = ["/api/weather?city=" ++ s.city, "/api/forecast?city=" ++ s.city]
    ∧ (∀ w f, weatherGet = .ok w → forecastGet = .ok f →
        fetchWeather.resume (fetchWeather s).1 (promiseAll weatherGet forecastGet forecastFirst)
          = { city := s.city, weather := w.data, forecast := f.data, loading := false,
              error := .null })
    ∧ ((∃ e, weatherGet = .error e) ∨ (∃ e, forecastGet = .error e) →
        ∃ message, message ≠ JSVal.null ∧ message.truthy = true ∧
          fetchWeather.resume (fetchWeather s).1 (promiseAll weatherGet forecastGet forecastFirst)
            = { city := s.city, weather := .null, forecast := .null, loading := false,
                error := message }) := by
  rw [fetchWeather_of_not_blank s hcity]
  refine ⟨rfl, ?_, ?_⟩
  · intro w f hw hf
    subst hw hf
    rfl
  · intro h
    cases weatherGet with
    | error e₁ =>
      cases forecastGet with
      | error e₂ =>
        cases forecastFirst
        · exact ⟨catchMessage e₁, catchMessage_ne_null e₁, catchMessage_truthy e₁, rfl⟩
        · exact ⟨catchMessage e₂, catchMessage_ne_null e₂, catchMessage_truthy e₂, rfl⟩
      | ok f => exact ⟨catchMessage e₁, catchMessage_ne_null e₁, catchMessage_truthy e₁, rfl⟩
    | ok w =>
      cases forecastGet with
      | error e₂ => exact ⟨catchMessage e₂, catchMessage_ne_null e₂, catchMessage_truthy e₂, rfl⟩
      | ok f =>
        rcases h with ⟨e, he⟩ | ⟨e, he⟩ <;> cases he

/-- Witness for C2: Mumbai, the weather request succeeds and the forecast request
fails without a response. -/
theorem fetchWeather_both_or_neither_witness :
    isBlank "Mumbai" = false
    ∧ ∃ message, message ≠ JSVal.null ∧ message.truthy = true ∧
        fetchWeather.resume (fetchWeather { AppState.initial with city := "Mumbai" }).1
            (promiseAll (.ok ⟨200, .obj [("city", .str "Mumbai")]⟩) (.error ⟨none⟩) false)
          = { city := "Mumbai", weather := .null, forecast := .null, loading := false,
              error := message } :=
  ⟨by decide,
    (fetchWeather_both_or_neither { AppState.initial with city := "Mumbai" } (by decide)
      (.ok ⟨200, .obj [("city", .str "Mumbai")]⟩) (.error ⟨none⟩) false).2.2
      (Or.inr ⟨⟨none⟩, rfl⟩)⟩

/-- C3, counterexample. A 404 response whose body carries the detail string `""`: the
error state is the generic message, not the detail. -/
theorem catchMessage_empty_detail :
    ¬ (∀ (s : AppState) (detail : String),
        (fetchWeather.resume s
          (.rejected ⟨some ⟨404, .obj [("detail", .str detail)]⟩⟩)).error = .str detail) := by
  intro h
  have h0 := h AppState.initial ""
  simp [fetchWeather.resume, catchMessage_cases, AxiosError.detail, JSVal.getProp,
    JSVal.truthy, List.lookup] at h0

/-- C3, amended. For every failure caught by `fetchWeather`: when the failure is a
response with status 404 whose body has a truthy `detail` (for a string: every
non-empty string), the error state is that detail verbatim; for every other failure
(no response, another status, a 404 whose detail is missing, empty or otherwise
falsy) the error state is the generic message. -/
theorem catchMessage_mapping (s : AppState) (err : AxiosError) :
    (∀ r, err.response = some r → r.status = 404 → (r.data.getProp "detail").truthy = true →
        (fetchWeather.resume s (.rejected err)).error = r.data.getProp "detail")
    ∧ (∀ r (detail : String), err.response = some r → r.status = 404 →
        r.data.getProp "detail" = .str detail → detail ≠ "" →
        (fetchWeather.resume s (.rejected err)).error = .str detail)
    ∧ (¬ (∃ r, err.response = some r ∧ r.status = 404
            ∧ (r.data.getProp "detail").truthy = true) →
        (fetchWeather.resume s (.rejected err)).error
          = .str "Could not fetch weather data. Please try again.") := by
  have hgen : ∀ r, err.response = some r → r.status = 404 →
      (r.data.getProp "detail").truthy = true →
      (fetchWeather.resume s (.rejected err)).error = r.data.getProp "detail" := by
    intro r hr hs ht
    simp [fetchWeather.resume, catchMessage_cases, AxiosError.detail, hr, hs, ht]
  refine ⟨hgen, ?_, ?_⟩
  · intro r detail hr hs hd hne
    rw [← hd]
    apply hgen r hr hs
    rw [hd]
    simp [JSVal.truthy, hne]
  · intro hno
    cases hresp : err.response with
    | none => simp [fetchWeather.resume, catchMessage_cases, hresp]
    | some r =>
      by_cases hs : r.status = 404
      · have ht : (r.data.getProp "detail").truthy = false := by
          cases hb : (r.data.getProp "detail").truthy
          · rfl
          · exact absurd ⟨r, hresp, hs, hb⟩ hno
        simp [fetchWeather.resume, catchMessage_cases, AxiosError.detail, hresp, ht]
      · simp [fetchWeather.resume, catchMessage_cases, hresp, hs]

/-- Witness for C3: Atlantis, 404 with detail `City not found`. -/
theorem catchMessage_mapping_witness :
    (fetchWeather.resume AppState.initial
      (.rejected ⟨some ⟨404, .obj [("detail", .str "City not found")]⟩⟩)).error
        = .str "City not found" :=
  (catchMessage_mapping AppState.initial
      ⟨some ⟨404, .obj [("detail", .str "City not found")]⟩⟩).2.1
    ⟨404, .obj [("detail", .str "City not found")]⟩ "City not found" rfl rfl rfl (by decide)

/-- C4. For every state whose city input is empty or white space only, submitting is a
no-op: `fetchWeather` returns the state unchanged (weather, forecast, loading and
error as they were, so loading is not set) and issues no request; the page as a whole
is unchanged by the submit event, with nothing added to the requests in flight. -/
theorem fetchWeather_blank_noop (sys : Sys) (hcity : isBlank sys.ui.city = true) :
    fetchWeather sys.ui = (sys.ui, []) ∧ sys.step .submit = sys := by
  have h := fetchWeather_of_blank sys.ui hcity
  refine ⟨h, ?_⟩
  simp only [Sys.step, h]
  split <;> rfl

/-- Witness for C4: a city of blanks and a tab, over a state that holds an earlier error. -/
theorem fetchWeather_blank_noop_witness :
    isBlank blankAfterError.city = true ∧ fetchWeather blankAfterError = (blankAfterError, []) :=
  ⟨by decide, (fetchWeather_blank_noop ⟨blankAfterError, 0⟩ (by decide)).1⟩

/-- C5. For every prior state (also one holding an earlier result or error) and every
non-blank city, the state on entry to a submission, before either request settles,
has weather, forecast and error null and loading true, with the city input unchanged. -/
theorem fetchWeather_entry_state (s : AppState) (hcity : isBlank s.city = false) :
    (fetchWeather s).1 =
      { city := s.city, weather := .null, forecast := .null, loading := true, error := .null } := by
  rw [fetchWeather_of_not_blank s hcity]

/-- Witness for C5: a new submission over an earlier result. -/
theorem fetchWeather_entry_state_witness :
    isBlank tokyoAfterPune.city = false
    ∧ (fetchWeather tokyoAfterPune).1 = { tokyoAfterPune with
        weather := .null, forecast := .null, loading := true, error := .null } :=
  ⟨by decide, fetchWeather_entry_state tokyoAfterPune (by decide)⟩

theorem Sys.consistent_initial : Sys.initial.Consistent := by
  constructor
  · intro h; cases h
  · intro _; exact ⟨rfl, Or.inl rfl⟩

theorem Sys.consistent_step (sys : Sys) (e : Event) (h : sys.Consistent) :
    (sys.step e).Consistent := by
  obtain ⟨hl, hn⟩ := h
  cases e with
  | type text => exact ⟨hl, hn⟩
  | submit =>
    cases hload : sys.ui.loading with
    | true =>
      have : sys.step .submit = sys := by simp [Sys.step, hload]
      rw [this]
      exact ⟨hl, hn⟩
    | false =>
      cases hb : isBlank sys.ui.city with
      | true =>
        have : sys.step .submit = sys := by
          simp [Sys.step, hload, fetchWeather_of_blank sys.ui hb]
        rw [this]
        exact ⟨hl, hn⟩
      | false =>
        have hp := (hn hload).1
        have : sys.step .submit =
            { ui := { sys.ui with loading := true, error := .null, weather := .null,
                                  forecast := .null },
              pending := 1 } := by
          simp [Sys.step, hload, fetchWeather_of_not_blank sys.ui hb, hp]
        rw [this]
        constructor
        · intro _; exact ⟨rfl, rfl, rfl⟩
        · intro hf; cases hf
  | settle w f first =>
    by_cases hp : sys.pending = 0
    · have : sys.step (.settle w f first) = sys := by simp [Sys.step, hp]
      rw [this]
      exact ⟨hl, hn⟩
    · have hload : sys.ui.loading = true := by
        cases hb : sys.ui.loading
        · exact absurd (hn hb).1 hp
        · rfl
      obtain ⟨hone, herr, hw⟩ := hl hload
      have hstep : sys.step (.settle w f first) =
          { ui := fetchWeather.resume sys.ui (promiseAll w f first), pending := 0 } := by
        simp [Sys.step, hone]
      rw [hstep]
      cases promiseAll w f first with
      | fulfilled wr fr =>
        constructor
        · intro hf; cases hf
        · intro _; exact ⟨rfl, Or.inl herr⟩
      | rejected err =>
        constructor
        · intro hf; cases hf
        · intro _; exact ⟨rfl, Or.inr hw⟩

theorem Sys.consistent_foldl (events : List Event) :
    ∀ sys : Sys, sys.Consistent → (events.foldl Sys.step sys).Consistent := by
  induction events with
  | nil => intro sys h; exact h
  | cons e rest ih => intro sys h; exact ih (sys.step e) (Sys.consistent_step sys e h)

/-- C6. In every state the page reaches from the first render (weather and forecast
null, loading false, error null) by any sequence of input edits, submissions and
settlements of the requests (each with any outcome), at most one of the three
conditions holds: loading is true, error is not null, weather is not null. A value
that is not null is needed for a render branch to show, so the loading, error and
result branches exclude one another. -/
theorem render_branches_exclusive (events : List Event) :
    ¬ ((Sys.run events).ui.loading = true ∧ (Sys.run events).ui.error ≠ .null)
    ∧ ¬ ((Sys.run events).ui.loading = true ∧ (Sys.run events).ui.weather ≠ .null)
    ∧ ¬ ((Sys.run events).ui.error ≠ .null ∧ (Sys.run events).ui.weather ≠ .null) := by
  have h : (Sys.run events).Consistent :=
    Sys.consistent_foldl events Sys.initial Sys.consistent_initial
  obtain ⟨hl, hn⟩ := h
  refine ⟨?_, ?_, ?_⟩
  · rintro ⟨h1, h2⟩
    exact h2 (hl h1).2.1
  · rintro ⟨h1, h2⟩
    exact h2 (hl h1).2.2
  · rintro ⟨h1, h2⟩
    cases hb : (Sys.run events).ui.loading with
    | true => exact h1 (hl hb).2.1
    | false =>
      rcases (hn hb).2 with h3 | h3
      · exact h1 h3
      · exact h2 h3

/-- The guard of the submit button matters: were `fetchWeather` entered a second time
while the first pair of requests is in flight, a success of one pair followed by a
failure of the other would leave both a result and an error in the state. -/
theorem fetchWeather_reentered_overlap :
    (fetchWeather.resume
      (fetchWeather.resume
        (fetchWeather (fetchWeather { AppState.initial with city := "Pune" }).1).1
        (.fulfilled ⟨200, .obj []⟩ ⟨200, .obj []⟩))
      (.rejected ⟨none⟩)).weather ≠ .null
    ∧ (fetchWeather.resume
      (fetchWeather.resume
        (fetchWeather (fetchWeather { AppState.initial with city := "Pune" }).1).1
        (.fulfilled ⟨200, .obj []⟩ ⟨200, .obj []⟩))
      (.rejected ⟨none⟩)).error ≠ .null := by
  have h1 : isBlank "Pune" = false := by decide
  have e1 := fetchWeather_of_not_blank { AppState.initial with city := "Pune" } h1
  rw [e1]
  have e2 := fetchWeather_of_not_blank
    { { AppState.initial with city := "Pune" } with
        loading := true, error := .null, weather := .null, forecast := .null } h1
  rw [e2]
  constructor
  · simp [fetchWeather.resume]
  · simp [fetchWeather.resume, catchMessage_cases]

theorem isPrefixOf_eq_take (search text : List Char) :
    search.isPrefixOf text = (text.take search.length == search) := by
  rw [Bool.eq_iff_iff, List.isPrefixOf_iff_prefix, List.prefix_iff_eq_take, beq_iff_eq]
  exact eq_comm

theorem includesList_eq_any (search : List Char) :
    ∀ text : List Char, includesList text search =
      (List.range (text.length + 1)).any fun i => (text.drop i).take search.length == search := by
  intro text
  induction text with
  | nil =>
    rw [includesList, isPrefixOf_eq_take]
    simp [List.range_succ_eq_map]
  | cons c cs ih =>
    rw [includesList, ih, isPrefixOf_eq_take]
    conv_rhs => rw [List.length_cons, List.range_succ_eq_map, List.any_cons, List.any_map]
    rfl

theorem includes_toLowerCase (d keyword : String)
    (hk : keyword.data.map Char.toLower = keyword.data) :
    includes (toLowerCase d) keyword = containsIgnoreCase d keyword := by
  unfold includes containsIgnoreCase equalsIgnoreCase
  rw [includesList_eq_any]
  simp only [toLowerCase, List.length_map, String.length, List.map_take, List.map_drop, hk]

theorem truthy_of_getProp_str (x : JSVal) (name d : String) (h : x.getProp name = .str d) :
    x.truthy = true := by
  cases x <;> first | rfl | (simp [JSVal.getProp] at h)

theorem mode_eq_spec (weather : JSVal) (d : String)
    (hd : weather.getProp "weather_description" = .str d) (hne : d ≠ "") :
    WeatherBackground.mode weather = some (visualModeSpec d) := by
  have hw := truthy_of_getProp_str weather _ d hd
  have hs : (JSVal.str d).truthy = true := by simpa [JSVal.truthy] using hne
  unfold WeatherBackground.mode visualModeSpec
  simp only [hw, hd, hs]
  rw [includes_toLowerCase d "rain" (by decide), includes_toLowerCase d "drizzle" (by decide),
    includes_toLowerCase d "thunder" (by decide), includes_toLowerCase d "snow" (by decide),
    includes_toLowerCase d "sleet" (by decide), includes_toLowerCase d "blizzard" (by decide),
    includes_toLowerCase d "clear" (by decide), includes_toLowerCase d "sun" (by decide),
    includes_toLowerCase d "cloud" (by decide), includes_toLowerCase d "overcast" (by decide)]
  simp only [Bool.not_true, Bool.or_false, Bool.false_eq_true, if_false]
  split_ifs <;> rfl

theorem mode_of_falsy (weather : JSVal)
    (h : weather.truthy = false ∨ (weather.getProp "weather_description").truthy = false) :
    WeatherBackground.mode weather = some "default" := by
  unfold WeatherBackground.mode
  rcases h with h | h <;> simp [h]

theorem icon_eq (day : JSVal) (d : String)
    (hd : day.getProp "weather_description" = .str d) :
    Forecast.icon day =
      some (if containsIgnoreCase d "rain" then "🌧️"
        else if containsIgnoreCase d "cloud" then "☁️" else "☀️") := by
  unfold Forecast.icon
  simp only [hd]
  rw [includes_toLowerCase d "rain" (by decide), includes_toLowerCase d "cloud" (by decide)]

theorem append_km_ne (x : String) : x ++ " km" ≠ "N/A" := by
  intro h
  have h1 := congrArg String.data h
  rw [String.data_append] at h1
  have h2 := congrArg List.length h1
  rw [List.length_append] at h2
  have h3 : " km".data.length = 3 := rfl
  have h4 : "N/A".data.length = 3 := rfl
  have h5 : x.data = [] := List.length_eq_zero.mp (by omega)
  rw [h5] at h1
  exact absurd h1 (by decide)

/-- C7. For every present, non-empty weather description the mode computed by
`WeatherBackground` is the one of the case-insensitive, first-match rule: rain, drizzle
or thunder gives rainy; else snow, sleet or blizzard gives snowy; else clear or sun
gives sunny; else cloud or overcast gives cloudy; else sunny. It is never default, and
a description that contains thunder in any letter case yields rainy, whatever else
it contains. Letter case is that of the letters A to Z. -/
theorem mode_first_matching_category (weather : JSVal) (d : String)
    (hd : weather.getProp "weather_description" = .str d) (hne : d ≠ "") :
    WeatherBackground.mode weather = some (visualModeSpec d)
    ∧ WeatherBackground.mode weather ≠ some "default"
    ∧ (containsIgnoreCase d "thunder" = true → WeatherBackground.mode weather = some "rainy") := by
  have key := mode_eq_spec weather d hd hne
  refine ⟨key, ?_, ?_⟩
  · rw [key]
    unfold visualModeSpec
    split_ifs <;> decide
  · intro h
    rw [key]
    simp [visualModeSpec, h]

/-- Witness for C7: thunder in capitals, after sun. -/
theorem mode_first_matching_category_witness :
    WeatherBackground.mode (withDescription "Sunny, then THUNDER") = some "rainy" :=
  (mode_first_matching_category (withDescription "Sunny, then THUNDER") "Sunny, then THUNDER"
    rfl (by decide)).2.2 (by decide)

/-- C8, counterexample. For the empty description the classifier returns default, not sunny. -/
theorem mode_empty_description :
    WeatherBackground.mode (withDescription "") = some "default"
    ∧ WeatherBackground.mode (withDescription "") ≠ some "sunny" := by
  constructor <;> decide

/-- C8, amended. The classifier of `WeatherBackground` returns default when the weather
object is null or absent, and when its description is null, absent or the empty
string (any falsy value): the empty description is caught by the same guard as the
missing one and does not reach the keyword checks. -/
theorem mode_default_when_no_description (weather : JSVal)
    (h : weather.truthy = false ∨ (weather.getProp "weather_description").truthy = false) :
    WeatherBackground.mode weather = some "default" :=
  mode_of_falsy weather h

/-- Witness for C8: the null weather object. -/
theorem mode_default_when_no_description_witness :
    WeatherBackground.mode .null = some "default" :=
  mode_default_when_no_description .null (Or.inl rfl)

/-- C9, the failing input. A current-weather object whose visibility is present and 0:
whatever the printing of numbers, `WeatherCard` renders `N/A`, where the claim asks
for the number followed by ` km` (`0 km`) and allows `N/A` only for an absent field. -/
theorem visibilityText_zero (numberToString : JSNumber → String) :
    (JSVal.obj [("visibility", .num (.finite 0))]).getProp "visibility" = .num (.finite 0)
    ∧ WeatherCard.visibilityText numberToString (.obj [("visibility", .num (.finite 0))])
        = some "N/A"
    ∧ WeatherCard.visibilityText numberToString (.obj [("visibility", .num (.finite 0))])
        ≠ some (numberToString (.finite 0) ++ " km") := by
  have h : WeatherCard.visibilityText numberToString (.obj [("visibility", .num (.finite 0))])
      = some "N/A" := by
    simp [WeatherCard.visibilityText, JSVal.truthy, JSVal.getProp, List.lookup,
      JSNumber.truthy]
  refine ⟨rfl, h, ?_⟩
  rw [h]
  intro hEq
  exact append_km_ne _ (Option.some.inj hEq).symm

/-- Away from the falsy values the visibility metric is as the claim C9 has it: `N/A`
for an absent field, the printed number followed by ` km` for every number other
than zero and NaN; and `N/A` appears exactly for a falsy visibility. -/
theorem visibilityText_cases (numberToString : JSNumber → String) (data : JSVal)
    (hdata : data.truthy = true) :
    (WeatherCard.visibilityText numberToString data = some "N/A"
        ↔ (data.getProp "visibility").truthy = false)
    ∧ (data.getProp "visibility" = .undefined →
        WeatherCard.visibilityText numberToString data = some "N/A")
    ∧ (∀ v : JSNumber, v.truthy = true → data.getProp "visibility" = .num v →
        WeatherCard.visibilityText numberToString data = some (numberToString v ++ " km")) := by
  refine ⟨?_, ?_, ?_⟩
  · cases ht : (data.getProp "visibility").truthy with
    | false => simp [WeatherCard.visibilityText, hdata, ht]
    | true =>
      have e : WeatherCard.visibilityText numberToString data
          = some ((data.getProp "visibility").toStr numberToString ++ " km") := by
        simp [WeatherCard.visibilityText, hdata, ht]
      rw [e]
      constructor
      · intro h
        exact absurd (Option.some.inj h) (append_km_ne _)
      · intro h
        cases h
  · intro h
    have hu : JSVal.undefined.truthy = false := rfl
    simp [WeatherCard.visibilityText, hdata, h, hu]
  · intro v hv h
    have hz : (JSVal.num v).truthy = true := hv
    simp only [WeatherCard.visibilityText, hdata, h, hz, Bool.not_true,
      Bool.false_eq_true, if_false, if_true, JSVal.toStr]

/-- C10, counterexample. For the description `drizzle` the background classifier returns
rainy while `Forecast` picks the sun icon, not the rain icon. -/
theorem icon_drizzle :
    WeatherBackground.mode (withDescription "drizzle") = some "rainy"
    ∧ Forecast.icon (withDescription "drizzle") = some "☀️"
    ∧ ¬ (Forecast.icon (withDescription "drizzle") = some "🌧️"
          ↔ WeatherBackground.mode (withDescription "drizzle") = some "rainy") := by
  refine ⟨?_, ?_, ?_⟩ <;> decide

/-- C10, amended. For every weather description string, `Forecast` picks the rain icon
when the description contains rain (in any letter case), otherwise the cloud icon
when it contains cloud, otherwise the sun icon. This agrees with the classifier of
`WeatherBackground` on the same description (the rain icon exactly when the
classifier returns rainy, the cloud icon exactly when it returns cloudy, the sun
icon in every other case) on every description except those without rain that
contain drizzle or thunder, or cloud together with one of snow, sleet, blizzard,
clear, sun, or overcast with none of cloud, snow, sleet, blizzard, clear, sun; on
each of those the two disagree. -/
theorem icon_agrees_iff (x : JSVal) (d : String)
    (hd : x.getProp "weather_description" = .str d) :
    Forecast.icon x =
        some (if containsIgnoreCase d "rain" then "🌧️"
          else if containsIgnoreCase d "cloud" then "☁️" else "☀️")
    ∧ (((Forecast.icon x = some "🌧️" ↔ WeatherBackground.mode x = some "rainy")
        ∧ (Forecast.icon x = some "☁️" ↔ WeatherBackground.mode x = some "cloudy")
        ∧ (Forecast.icon x = some "☀️" ↔
            (WeatherBackground.mode x ≠ some "rainy"
              ∧ WeatherBackground.mode x ≠ some "cloudy")))
      ↔ iconDiffersFromMode d = false) := by
  refine ⟨icon_eq x d hd, ?_⟩
  rw [icon_eq x d hd]
  by_cases hne : d = ""
  · subst hne
    have hm : WeatherBackground.mode x = some "default" :=
      mode_of_falsy x (Or.inr (by rw [hd]; rfl))
    have hr : containsIgnoreCase "" "rain" = false := by decide
    have hc : containsIgnoreCase "" "cloud" = false := by decide
    have hx : iconDiffersFromMode "" = false := by decide
    rw [hm, hr, hc, hx]
    simp
  · rw [mode_eq_spec x d hd hne]
    unfold visualModeSpec iconDiffersFromMode
    generalize containsIgnoreCase d "rain" = rain
    generalize containsIgnoreCase d "drizzle" = drizzle
    generalize containsIgnoreCase d "thunder" = thunder
    generalize containsIgnoreCase d "snow" = snow
    generalize containsIgnoreCase d "sleet" = sleet
    generalize containsIgnoreCase d "blizzard" = blizzard
    generalize containsIgnoreCase d "clear" = clear
    generalize containsIgnoreCase d "sun" = sun
    generalize containsIgnoreCase d "cloud" = cloud
    generalize containsIgnoreCase d "overcast" = overcast
    cases rain <;> cases drizzle <;> cases thunder <;> cases snow <;> cases sleet
      <;> cases blizzard <;> cases clear <;> cases sun <;> cases cloud <;> cases overcast
      <;> decide

/-- Witness for C10: `Overcast clouds`, cloud icon and cloudy mode. -/
theorem icon_agrees_iff_witness :
    (Forecast.icon (withDescription "Overcast clouds") = some "☁️"
      ↔ WeatherBackground.mode (withDescription "Overcast clouds") = some "cloudy")
    ∧ Forecast.icon (withDescription "Overcast clouds") = some "☁️" :=
  ⟨((icon_agrees_iff (withDescription "Overcast clouds") "Overcast clouds" rfl).2.mpr
      (by decide)).2.1,
    (icon_agrees_iff (withDescription "Overcast clouds") "Overcast clouds" rfl).1.trans
      (by decide)⟩

end WeatherNow
